import Mathlib

/-!
# Verification of `hyper_inspector.py` (hyper-files-inspector)

Shallow embedding of `src/hyper_inspector.py`.  The script talks to the
closed Hyper engine through SQL catalog queries; we model the engine as an
oracle (`HyperDB`): the schemas, tables, columns and rows it would report,
together with one Boolean per query that the source wraps (or fails to
wrap) in a `try`/`except`, saying whether that query raises.  File-system
calls (`os.path.exists`, `os.path.isdir`, `Path.rglob`) are likewise
modelled by an oracle (`World`, `DirWorld`).

Python-specific behaviour embedded faithfully:
  * `file_path.lower().endswith('.hyper')` (lines 61, 246) becomes
    `pyEndsWith (pyLower file_path) ".hyper"`;
  * the truthiness test `elif max_rows_per_table:` (line 169) treats
    `0` (and `None`) as false, so `--max-rows 0` falls through to the
    unlimited branch;
  * inspect's value conversion (line 346) applies Python `str`, while
    export's (line 189) keeps the value as-is;
  * an uncaught query exception propagates to the outer
    `except HyperException` handler, producing a `success: false` result
    with a "Hyper API error: " message (lines 217-222 / 369-374).
-/

/-- A value stored in a Hyper table cell, as handed back by the engine:
`NULL`, an integer, a text string, or a date/time object (which Python
detects via `hasattr(value, 'isoformat')`; we carry its ISO-8601 string). -/
inductive HVal where
  | null
  | intV (n : Int)
  | strV (s : String)
  | dateV (iso : String)
deriving DecidableEq, Repr

/-- Column metadata as returned by the `pg_attribute` query
(lines 133-156 / 303-323). The `default` field of the source is always
`NULL` and is omitted. -/
structure HColumn where
  name : String
  dataType : String
  nullable : Bool
deriving DecidableEq, Repr

/-- One table of the Hyper file, together with the failure oracles for the
three per-table queries the source issues: the column listing
(line 148 / 317, NOT wrapped in `try`), the `COUNT(*)` query
(line 161 / 328, wrapped), and the data/sample scan (line 179 / 337,
wrapped). -/
structure HTable where
  name : String
  columns : List HColumn
  rows : List (List HVal)
  columnsFail : Bool
  countFails : Bool
  dataFails : Bool
deriving DecidableEq, Repr

/-- A schema (namespace) with its tables, as the per-schema `pg_tables`
query would enumerate them (lines 121-127 / 291-297). -/
structure HSchema where
  name : String
  tables : List HTable
deriving DecidableEq, Repr

/-- The engine oracle: the user schemas of the opened file, plus the
failure flags of the two schema-listing catalog queries —
`information_schema.tables` (export's primary, line 98) and
`pg_namespace` (inspect's only query, line 279).  Export's fallback
`pg_tables` query (line 109) and the per-schema table listings are
modelled as succeeding; all catalog views enumerate the same user
schemas. -/
structure HyperDB where
  schemas : List HSchema
  infoSchemaFails : Bool
  pgNamespaceFails : Bool
deriving DecidableEq, Repr

/-- File-system oracle for a single path: `os.path.exists` plus the
database the engine would expose when the file is opened. -/
structure World where
  pathExists : Bool
  db : HyperDB
deriving DecidableEq, Repr

/-- A JSON value as placed into the output rows: `null`, a number, or a
string (plain text or ISO-8601 timestamp). -/
inductive JVal where
  | jnull
  | jnum (n : Int)
  | jstr (s : String)
deriving DecidableEq, Repr

/-- Python `str.lower()` on the character data. -/
def pyLower (s : String) : String := String.mk (s.data.map Char.toLower)

/-- Python `str.endswith(t)`: `t` is a suffix of `s`. -/
def pyEndsWith (s t : String) : Bool := decide (t.data <:+ s.data)

/-- Python `str(value)` on an engine value (only the non-`None`,
non-datetime cases are reachable in the conversions below). -/
def pyStr : HVal → String
  | .null => "None"
  | .intV n => toString n
  | .strV s => s
  | .dateV iso => iso

/-- Export's value conversion (lines 184-189): `None` to `null`, datetime
objects to their `isoformat()` string, everything else kept as-is. -/
def convertValueExport : HVal → JVal
  | .null => .jnull
  | .dateV iso => .jstr iso
  | .intV n => .jnum n
  | .strV s => .jstr s

/-- Inspect's value conversion (lines 341-346): `None` to `null`, datetime
objects to their `isoformat()` string, everything else through `str()`. -/
def convertValueInspect : HVal → JVal
  | .null => .jnull
  | .dateV iso => .jstr iso
  | .intV n => .jstr (pyStr (.intV n))
  | .strV s => .jstr (pyStr (.strV s))

/-! ## Export (`export_file_data`, lines 43-228) -/

/-- One exported row (lines 181-190): a mapping from column name to
converted value, in column order (`column_names[i]` paired with
`data_row[i]`). -/
def exportRow (columnNames : List String) (r : List HVal) : List (String × JVal) :=
  (columnNames.zip r).map (fun p => (p.1, convertValueExport p.2))

/-- The data query of lines 165-174 and its execution inside the `try` of
lines 178-196: `LIMIT 5` when sample-only; `LIMIT N` when `max_rows` is
truthy (a negative limit is a query error, caught by the same `try`);
otherwise unlimited.  `none` means the scan raised. -/
def runDataQuery (sampleOnly : Bool) (maxRows : Option Int) (t : HTable) : Option (List (List HVal)) :=
  if t.dataFails then none
  else if sampleOnly then some (t.rows.take 5)
  else
    match maxRows with
    | none => some t.rows
    | some n => if n = 0 then some t.rows else if n < 0 then none else some (t.rows.take n.toNat)

/-- One entry of the export result's `tables` list (lines 198-207). -/
structure ExportTableInfo where
  schema : String
  name : String
  columns : List HColumn
  total_rows : Nat
  exported_rows : Nat
  data : List (List (String × JVal))
deriving DecidableEq, Repr

/-- Per-table export in the case where the (unwrapped) column listing
succeeded (lines 146-207).  Returns the table entry plus the amount added
to the running `total_exported` (line 192; on a data-scan failure the
`except` branch resets `exported_data` to `[]` and skips the increment). -/
def exportTableOk (sampleOnly : Bool) (maxRows : Option Int) (schemaName : String) (t : HTable) : ExportTableInfo × Nat :=
  let columnNames := t.columns.map (fun c => c.name)
  let total_rows : Nat := if t.countFails then 0 else t.rows.length
  match runDataQuery sampleOnly maxRows t with
  | some rs =>
      let exported_data := rs.map (exportRow columnNames)
      ({ schema := schemaName, name := t.name, columns := t.columns,
         total_rows := total_rows, exported_rows := exported_data.length,
         data := exported_data }, exported_data.length)
  | none =>
      ({ schema := schemaName, name := t.name, columns := t.columns,
         total_rows := total_rows, exported_rows := 0, data := [] }, 0)

/-- Per-table export step.  The column listing of lines 146-156 is not
inside any `try`, so its failure raises out of the whole table loop. -/
def exportProcessTable (sampleOnly : Bool) (maxRows : Option Int) (schemaName : String) (t : HTable) : Except String (ExportTableInfo × Nat) :=
  if t.columnsFail then .error ("columns query failed for table " ++ t.name)
  else .ok (exportTableOk sampleOnly maxRows schemaName t)

/-- The inner table loop of lines 127-209: processes tables in order, the
first uncaught exception aborting the rest. -/
def exportTablesInSchema (sampleOnly : Bool) (maxRows : Option Int) (schemaName : String) : List HTable → Except String (List (ExportTableInfo × Nat))
  | [] => .ok []
  | t :: ts =>
    match exportProcessTable sampleOnly maxRows schemaName t with
    | .error e => .error e
    | .ok p =>
      match exportTablesInSchema sampleOnly maxRows schemaName ts with
      | .error e => .error e
      | .ok ps => .ok (p :: ps)

/-- The outer schema loop of lines 119-209. -/
def exportAllSchemas (sampleOnly : Bool) (maxRows : Option Int) : List HSchema → Except String (List (ExportTableInfo × Nat))
  | [] => .ok []
  | s :: ss =>
    match exportTablesInSchema sampleOnly maxRows s.name s.tables with
    | .error e => .error e
    | .ok ps =>
      match exportAllSchemas sampleOnly maxRows ss with
      | .error e => .error e
      | .ok qs => .ok (ps ++ qs)

/-- The schema names obtained by lines 96-111: the
`information_schema.tables` query, falling back to the `pg_tables` query
inside the bare `except` when the primary raises.  Both catalog views
enumerate the user schemas of the file. -/
def exportSchemaNames (db : HyperDB) : List String :=
  if db.infoSchemaFails then db.schemas.map (fun s => s.name)
  else db.schemas.map (fun s => s.name)

/-- The successful export payload (the fields of `result` the claims are
about; the file-metadata fields `file_path`/`file_name`/`file_size`/
`export_type`/`max_rows_per_table` are echoes of the inputs and are
omitted). -/
structure ExportOk where
  schemas : List String
  tables : List ExportTableInfo
  total_tables : Nat
  total_rows_exported : Nat
deriving DecidableEq, Repr

/-- Result of `export_file_data`: either a `success: false` object whose
only payload is the `error` string, or the success payload. -/
inductive ExportResult where
  | err (msg : String)
  | ok (r : ExportOk)
deriving DecidableEq, Repr

/-- The body of `export_file_data` after the path checks (lines 67-228):
schema listing with fallback, the table loops, and the outer
`except HyperException` handler that turns an uncaught query exception
into a `success: false` result. -/
def exportGo (w : World) (sampleOnly : Bool) (maxRows : Option Int) : ExportResult :=
  match exportAllSchemas sampleOnly maxRows w.db.schemas with
  | .error msg => .err ("Hyper API error: " ++ msg)
  | .ok pairs =>
      let tables := pairs.map Prod.fst
      .ok { schemas := exportSchemaNames w.db, tables := tables,
            total_tables := tables.length,
            total_rows_exported := (pairs.map Prod.snd).sum }

/-- `HyperFileInspector.export_file_data` (lines 43-228): reject a missing
path (line 55), then a wrong extension (line 61), before touching the
engine; otherwise run the export body. -/
def export_file_data (file_path : String) (w : World) (sampleOnly : Bool) (maxRows : Option Int) : ExportResult :=
  if w.pathExists = false then .err ("File not found: " ++ file_path)
  else if pyEndsWith (pyLower file_path) ".hyper" = false then .err ("Not a .hyper file: " ++ file_path)
  else exportGo w sampleOnly maxRows

/-! ## Inspect (`inspect_file`, lines 230-380) -/

/-- The `row_count` field of an inspected table: a number, or the string
`"Unable to determine"` when the `COUNT(*)` query failed (line 331). -/
inductive RowCount where
  | num (n : Nat)
  | unknown
deriving DecidableEq, Repr

/-- One element of inspect's `sample_data` list: a converted row, or — on
a sample-query failure — the single error string of line 349. -/
inductive SampleEntry where
  | row (vals : List JVal)
  | note (msg : String)
deriving DecidableEq, Repr

/-- One entry of inspect's `tables` list (lines 351-359). -/
structure InspectTableInfo where
  schema : String
  name : String
  columns : List HColumn
  row_count : RowCount
  sample_data : List SampleEntry
deriving DecidableEq, Repr

/-- Per-table inspection in the case where the (unwrapped) column listing
succeeded (lines 316-359).  Returns the table entry plus the amount added
to the running `total_rows` (line 329; the increment happens inside the
count `try`, so a count failure contributes nothing). -/
def inspectTableOk (schemaName : String) (t : HTable) : InspectTableInfo × Nat :=
  let rcPair : RowCount × Nat :=
    if t.countFails then (.unknown, 0) else (.num t.rows.length, t.rows.length)
  let sample_data : List SampleEntry :=
    if t.dataFails then [.note ("Error retrieving sample data: query failed for table " ++ t.name)]
    else (t.rows.take 5).map (fun r => .row (r.map convertValueInspect))
  ({ schema := schemaName, name := t.name, columns := t.columns,
     row_count := rcPair.1, sample_data := sample_data }, rcPair.2)

/-- Per-table inspect step; like export, the column listing of
lines 316-323 is not inside any `try`. -/
def inspectProcessTable (schemaName : String) (t : HTable) : Except String (InspectTableInfo × Nat) :=
  if t.columnsFail then .error ("columns query failed for table " ++ t.name)
  else .ok (inspectTableOk schemaName t)

/-- The inner table loop of lines 297-361. -/
def inspectTablesInSchema (schemaName : String) : List HTable → Except String (List (InspectTableInfo × Nat))
  | [] => .ok []
  | t :: ts =>
    match inspectProcessTable schemaName t with
    | .error e => .error e
    | .ok p =>
      match inspectTablesInSchema schemaName ts with
      | .error e => .error e
      | .ok ps => .ok (p :: ps)

/-- The outer schema loop of lines 289-361. -/
def inspectAllSchemas : List HSchema → Except String (List (InspectTableInfo × Nat))
  | [] => .ok []
  | s :: ss =>
    match inspectTablesInSchema s.name s.tables with
    | .error e => .error e
    | .ok ps =>
      match inspectAllSchemas ss with
      | .error e => .error e
      | .ok qs => .ok (ps ++ qs)

/-- The successful inspect payload (again omitting the input-echo
file-metadata fields). -/
structure InspectOk where
  schemas : List String
  tables : List InspectTableInfo
  total_tables : Nat
  total_rows : Nat
deriving DecidableEq, Repr

/-- Result of `inspect_file`. -/
inductive InspectResult where
  | err (msg : String)
  | ok (r : InspectOk)
deriving DecidableEq, Repr

/-- The body of `inspect_file` after the path checks (lines 252-380): the
single `pg_namespace` schema query of lines 272-281 — which, unlike
export's, has NO fallback and is not inside any inner `try`, so its
failure propagates to the outer handler — then the table loops. -/
def inspectGo (w : World) : InspectResult :=
  if w.db.pgNamespaceFails then .err ("Hyper API error: schema catalog query failed")
  else
    match inspectAllSchemas w.db.schemas with
    | .error msg => .err ("Hyper API error: " ++ msg)
    | .ok pairs =>
        let tables := pairs.map Prod.fst
        .ok { schemas := w.db.schemas.map (fun s => s.name), tables := tables,
              total_tables := tables.length,
              total_rows := (pairs.map Prod.snd).sum }

/-- `HyperFileInspector.inspect_file` (lines 230-380): reject a missing
path (line 240), then a wrong extension (line 246), before touching the
engine; otherwise run the inspect body. -/
def inspect_file (file_path : String) (w : World) : InspectResult :=
  if w.pathExists = false then .err ("File not found: " ++ file_path)
  else if pyEndsWith (pyLower file_path) ".hyper" = false then .err ("Not a .hyper file: " ++ file_path)
  else inspectGo w

/-! ## Discover (`discover_hyper_files`, lines 382-430) -/

/-- One file found by `Path.rglob` (lines 410-415): absolute path, name,
size and modification time. -/
structure DirEntry where
  path : String
  name : String
  size : Nat
  modified : Int
deriving DecidableEq, Repr

/-- File-system oracle for a directory argument: `os.path.exists`,
`os.path.isdir`, and all files under the directory recursively (from
which `rglob` selects the matching ones). -/
structure DirWorld where
  pathExists : Bool
  isDir : Bool
  entries : List DirEntry
deriving DecidableEq, Repr

/-- The successful discover payload (lines 418-423). -/
structure DiscoverOk where
  directory : String
  files_found : Nat
  files : List DirEntry
deriving DecidableEq, Repr

/-- Result of `discover_hyper_files`. -/
inductive DiscoverResult where
  | err (msg : String)
  | ok (r : DiscoverOk)
deriving DecidableEq, Repr

/-- `HyperFileInspector.discover_hyper_files` (lines 382-430): existence
and directory checks, then `rglob("*.hyper")` — a case-sensitive glob on
POSIX, i.e. names ending in the lowercase `".hyper"`. -/
def discover_hyper_files (directory : String) (w : DirWorld) : DiscoverResult :=
  if w.pathExists = false then .err ("Directory not found: " ++ directory)
  else if w.isDir = false then .err ("Not a directory: " ++ directory)
  else
    let hyper_files := w.entries.filter (fun e => pyEndsWith e.name ".hyper")
    .ok { directory := directory, files_found := hyper_files.length, files := hyper_files }

/-! ## Projections used to state concrete counterexamples -/

/-- The `tables` list of an export result (empty on error). -/
def tablesOfExport : ExportResult → List ExportTableInfo
  | .ok r => r.tables
  | .err _ => []

/-- The `tables` list of an inspect result (empty on error). -/
def tablesOfInspect : InspectResult → List InspectTableInfo
  | .ok r => r.tables
  | .err _ => []

/-- The `exported_rows` fields of an export result, in table order. -/
def exportedRowsOf (r : ExportResult) : List Nat :=
  (tablesOfExport r).map (fun i => i.exported_rows)

/-- Whether a result is a `success: false` error object. -/
def exportIsErr : ExportResult → Bool
  | .err _ => true
  | .ok _ => false

/-- Numeric reading of a `row_count` field (0 when undetermined). -/
def RowCount.toNat : RowCount → Nat
  | .num n => n
  | .unknown => 0

/-! ## Loop lemmas: the success path and an inversion for each loop -/

theorem exportProcessTable_ok_inv {so : Bool} {mr : Option Int} {sch : String} {t : HTable} {p : ExportTableInfo × Nat} (h : exportProcessTable so mr sch t = .ok p) : t.columnsFail = false ∧ p = exportTableOk so mr sch t := by
  unfold exportProcessTable at h
  by_cases hc : t.columnsFail = true
  · simp [hc] at h
  · simp [hc] at h
    exact ⟨by simpa using hc, h.symm⟩

theorem exportTablesInSchema_ok (so : Bool) (mr : Option Int) (sch : String) (ts : List HTable) (h : ∀ t ∈ ts, t.columnsFail = false) : exportTablesInSchema so mr sch ts = .ok (ts.map (exportTableOk so mr sch)) := by
  induction ts with
  | nil => rfl
  | cons t ts ih =>
    have ht : t.columnsFail = false := h t (by simp)
    have hts : ∀ x ∈ ts, x.columnsFail = false := fun x hx => h x (by simp [hx])
    simp [exportTablesInSchema, exportProcessTable, ht, ih hts]

theorem exportAllSchemas_ok (so : Bool) (mr : Option Int) (ss : List HSchema) (h : ∀ s ∈ ss, ∀ t ∈ s.tables, t.columnsFail = false) : exportAllSchemas so mr ss = .ok ((ss.map (fun s => s.tables.map (exportTableOk so mr s.name))).flatten) := by
  induction ss with
  | nil => rfl
  | cons s ss ih =>
    have hs : ∀ t ∈ s.tables, t.columnsFail = false := h s (by simp)
    have hss : ∀ x ∈ ss, ∀ t ∈ x.tables, t.columnsFail = false := fun x hx => h x (by simp [hx])
    simp [exportAllSchemas, exportTablesInSchema_ok so mr s.name s.tables hs, ih hss]

theorem exportTablesInSchema_mem {so : Bool} {mr : Option Int} {sch : String} {ts : List HTable} {ps : List (ExportTableInfo × Nat)} (h : exportTablesInSchema so mr sch ts = .ok ps) : ∀ p ∈ ps, ∃ t ∈ ts, p = exportTableOk so mr sch t := by
  induction ts generalizing ps with
  | nil =>
    simp only [exportTablesInSchema] at h
    cases h
    simp
  | cons t ts ih =>
    simp only [exportTablesInSchema] at h
    cases hp : exportProcessTable so mr sch t with
    | error e => rw [hp] at h; cases h
    | ok p0 =>
      rw [hp] at h
      cases hq : exportTablesInSchema so mr sch ts with
      | error e => rw [hq] at h; cases h
      | ok ps0 =>
        rw [hq] at h
        cases h
        intro p hmem
        rcases List.mem_cons.mp hmem with rfl | hmem2
        · exact ⟨t, by simp, (exportProcessTable_ok_inv hp).2⟩
        · rcases ih hq p hmem2 with ⟨t2, ht2, hpt2⟩
          exact ⟨t2, by simp [ht2], hpt2⟩

theorem exportAllSchemas_mem {so : Bool} {mr : Option Int} {ss : List HSchema} {ps : List (ExportTableInfo × Nat)} (h : exportAllSchemas so mr ss = .ok ps) : ∀ p ∈ ps, ∃ sch ∈ ss, ∃ t ∈ sch.tables, p = exportTableOk so mr sch.name t := by
  induction ss generalizing ps with
  | nil =>
    simp only [exportAllSchemas] at h
    cases h
    simp
  | cons s ss ih =>
    simp only [exportAllSchemas] at h
    cases hp : exportTablesInSchema so mr s.name s.tables with
    | error e => rw [hp] at h; cases h
    | ok ps1 =>
      rw [hp] at h
      cases hq : exportAllSchemas so mr ss with
      | error e => rw [hq] at h; cases h
      | ok ps2 =>
        rw [hq] at h
        cases h
        intro p hmem
        rcases List.mem_append.mp hmem with h1 | h2
        · rcases exportTablesInSchema_mem hp p h1 with ⟨t, ht, hpt⟩
          exact ⟨s, by simp, t, ht, hpt⟩
        · rcases ih hq p h2 with ⟨sch, hsch, t, ht, hpt⟩
          exact ⟨sch, by simp [hsch], t, ht, hpt⟩

theorem export_file_data_ok_inv {file_path : String} {w : World} {so : Bool} {mr : Option Int} {r : ExportOk} (h : export_file_data file_path w so mr = .ok r) : ∃ pairs, exportAllSchemas so mr w.db.schemas = .ok pairs ∧ r.tables = pairs.map Prod.fst ∧ r.total_rows_exported = (pairs.map Prod.snd).sum := by
  unfold export_file_data at h
  by_cases h1 : w.pathExists = false
  · simp [h1] at h
  · rw [if_neg h1] at h
    by_cases h2 : pyEndsWith (pyLower file_path) ".hyper" = false
    · simp [h2] at h
    · rw [if_neg h2] at h
      unfold exportGo at h
      cases hq : exportAllSchemas so mr w.db.schemas with
      | error e => rw [hq] at h; cases h
      | ok pairs =>
        rw [hq] at h
        cases h
        exact ⟨pairs, rfl, rfl, rfl⟩

theorem inspectProcessTable_ok_inv {sch : String} {t : HTable} {p : InspectTableInfo × Nat} (h : inspectProcessTable sch t = .ok p) : t.columnsFail = false ∧ p = inspectTableOk sch t := by
  unfold inspectProcessTable at h
  by_cases hc : t.columnsFail = true
  · simp [hc] at h
  · simp [hc] at h
    exact ⟨by simpa using hc, h.symm⟩

theorem inspectTablesInSchema_ok (sch : String) (ts : List HTable) (h : ∀ t ∈ ts, t.columnsFail = false) : inspectTablesInSchema sch ts = .ok (ts.map (inspectTableOk sch)) := by
  induction ts with
  | nil => rfl
  | cons t ts ih =>
    have ht : t.columnsFail = false := h t (by simp)
    have hts : ∀ x ∈ ts, x.columnsFail = false := fun x hx => h x (by simp [hx])
    simp [inspectTablesInSchema, inspectProcessTable, ht, ih hts]

theorem inspectAllSchemas_ok (ss : List HSchema) (h : ∀ s ∈ ss, ∀ t ∈ s.tables, t.columnsFail = false) : inspectAllSchemas ss = .ok ((ss.map (fun s => s.tables.map (inspectTableOk s.name))).flatten) := by
  induction ss with
  | nil => rfl
  | cons s ss ih =>
    have hs : ∀ t ∈ s.tables, t.columnsFail = false := h s (by simp)
    have hss : ∀ x ∈ ss, ∀ t ∈ x.tables, t.columnsFail = false := fun x hx => h x (by simp [hx])
    simp [inspectAllSchemas, inspectTablesInSchema_ok s.name s.tables hs, ih hss]

theorem inspectTablesInSchema_mem {sch : String} {ts : List HTable} {ps : List (InspectTableInfo × Nat)} (h : inspectTablesInSchema sch ts = .ok ps) : ∀ p ∈ ps, ∃ t ∈ ts, p = inspectTableOk sch t := by
  induction ts generalizing ps with
  | nil =>
    simp only [inspectTablesInSchema] at h
    cases h
    simp
  | cons t ts ih =>
    simp only [inspectTablesInSchema] at h
    cases hp : inspectProcessTable sch t with
    | error e => rw [hp] at h; cases h
    | ok p0 =>
      rw [hp] at h
      cases hq : inspectTablesInSchema sch ts with
      | error e => rw [hq] at h; cases h
      | ok ps0 =>
        rw [hq] at h
        cases h
        intro p hmem
        rcases List.mem_cons.mp hmem with rfl | hmem2
        · exact ⟨t, by simp, (inspectProcessTable_ok_inv hp).2⟩
        · rcases ih hq p hmem2 with ⟨t2, ht2, hpt2⟩
          exact ⟨t2, by simp [ht2], hpt2⟩

theorem inspectAllSchemas_mem {ss : List HSchema} {ps : List (InspectTableInfo × Nat)} (h : inspectAllSchemas ss = .ok ps) : ∀ p ∈ ps, ∃ sch ∈ ss, ∃ t ∈ sch.tables, p = inspectTableOk sch.name t := by
  induction ss generalizing ps with
  | nil =>
    simp only [inspectAllSchemas] at h
    cases h
    simp
  | cons s ss ih =>
    simp only [inspectAllSchemas] at h
    cases hp : inspectTablesInSchema s.name s.tables with
    | error e => rw [hp] at h; cases h
    | ok ps1 =>
      rw [hp] at h
      cases hq : inspectAllSchemas ss with
      | error e => rw [hq] at h; cases h
      | ok ps2 =>
        rw [hq] at h
        cases h
        intro p hmem
        rcases List.mem_append.mp hmem with h1 | h2
        · rcases inspectTablesInSchema_mem hp p h1 with ⟨t, ht, hpt⟩
          exact ⟨s, by simp, t, ht, hpt⟩
        · rcases ih hq p h2 with ⟨sch, hsch, t, ht, hpt⟩
          exact ⟨sch, by simp [hsch], t, ht, hpt⟩

theorem inspect_file_ok_inv {file_path : String} {w : World} {r : InspectOk} (h : inspect_file file_path w = .ok r) : ∃ pairs, inspectAllSchemas w.db.schemas = .ok pairs ∧ r.tables = pairs.map Prod.fst ∧ r.total_rows = (pairs.map Prod.snd).sum := by
  unfold inspect_file inspectGo at h
  by_cases h1 : w.pathExists = false
  · simp [h1] at h
  · rw [if_neg h1] at h
    by_cases h2 : pyEndsWith (pyLower file_path) ".hyper" = false
    · simp [h2] at h
    · rw [if_neg h2] at h
      by_cases h3 : w.db.pgNamespaceFails = true
      · simp [h3] at h
      · rw [if_neg (by simpa using h3)] at h
        cases hq : inspectAllSchemas w.db.schemas with
        | error e => rw [hq] at h; cases h
        | ok pairs =>
          rw [hq] at h
          cases h
          exact ⟨pairs, rfl, rfl, rfl⟩

/-! ## String lemmas for the lowercased extension check -/

theorem pyLower_append (s t : String) : pyLower (s ++ t) = pyLower s ++ pyLower t := by
  unfold pyLower
  rw [String.data_append, List.map_append]
  rfl

theorem pyEndsWith_append_right (s t : String) : pyEndsWith (s ++ t) t = true := by
  unfold pyEndsWith
  rw [String.data_append]
  exact decide_eq_true (List.suffix_append s.data t.data)

/-! ## Success-path characterisations of the whole operations -/

theorem export_file_data_ok_of (file_path : String) (w : World) (so : Bool) (mr : Option Int) (hex : w.pathExists = true) (hext : pyEndsWith (pyLower file_path) ".hyper" = true) {pairs : List (ExportTableInfo × Nat)} (hall : exportAllSchemas so mr w.db.schemas = .ok pairs) : export_file_data file_path w so mr = .ok { schemas := exportSchemaNames w.db, tables := pairs.map Prod.fst, total_tables := (pairs.map Prod.fst).length, total_rows_exported := (pairs.map Prod.snd).sum } := by
  unfold export_file_data exportGo
  rw [if_neg (by simp [hex]), if_neg (by simp [hext]), hall]

theorem inspect_file_ok_of (file_path : String) (w : World) (hex : w.pathExists = true) (hext : pyEndsWith (pyLower file_path) ".hyper" = true) (hns : w.db.pgNamespaceFails = false) {pairs : List (InspectTableInfo × Nat)} (hall : inspectAllSchemas w.db.schemas = .ok pairs) : inspect_file file_path w = .ok { schemas := w.db.schemas.map (fun s => s.name), tables := pairs.map Prod.fst, total_tables := (pairs.map Prod.fst).length, total_rows := (pairs.map Prod.snd).sum } := by
  unfold inspect_file inspectGo
  rw [if_neg (by simp [hex]), if_neg (by simp [hext]), if_neg (by simp [hns]), hall]

/-! ## Claim C6 -/

/-- Claim C6 (confirmed): for every path that does not exist, inspect,
export and discover return a structured result carrying only a
`success: false` flag and a "... not found ..." error string — the `err`
constructors of `ExportResult`/`InspectResult`/`DiscoverResult` carry no
schemas, tables or files payload — and inspect/export reject an existing
path whose lowercased name does not end in `.hyper` before any engine
query (the error is produced for every engine oracle `w.db`, which is
universally quantified here). -/
theorem C6_not_found_and_extension_rejection (path : String) (w : World) (dw : DirWorld) (so : Bool) (mr : Option Int) : (w.pathExists = false → export_file_data path w so mr = .err ("File not found: " ++ path) ∧ inspect_file path w = .err ("File not found: " ++ path)) ∧ (dw.pathExists = false → discover_hyper_files path dw = .err ("Directory not found: " ++ path)) ∧ (w.pathExists = true → pyEndsWith (pyLower path) ".hyper" = false → export_file_data path w so mr = .err ("Not a .hyper file: " ++ path) ∧ inspect_file path w = .err ("Not a .hyper file: " ++ path)) := by
  refine ⟨?_, ?_, ?_⟩
  · intro h
    exact ⟨by simp [export_file_data, h], by simp [inspect_file, h]⟩
  · intro h
    simp [discover_hyper_files, h]
  · intro h1 h2
    exact ⟨by simp [export_file_data, h1, h2], by simp [inspect_file, h1, h2]⟩

def c6WorldMissing : World := { pathExists := false, db := { schemas := [], infoSchemaFails := false, pgNamespaceFails := false } }

def c6WorldTxt : World := { pathExists := true, db := { schemas := [], infoSchemaFails := false, pgNamespaceFails := false } }

def c6DirMissing : DirWorld := { pathExists := false, isDir := false, entries := [] }

/-- Concrete instantiation of `C6_not_found_and_extension_rejection`. -/
theorem C6_witness : (export_file_data "missing.hyper" c6WorldMissing false none = .err ("File not found: " ++ "missing.hyper") ∧ inspect_file "missing.hyper" c6WorldMissing = .err ("File not found: " ++ "missing.hyper")) ∧ (discover_hyper_files "nodir" c6DirMissing = .err ("Directory not found: " ++ "nodir")) ∧ (export_file_data "data.txt" c6WorldTxt false none = .err ("Not a .hyper file: " ++ "data.txt") ∧ inspect_file "data.txt" c6WorldTxt = .err ("Not a .hyper file: " ++ "data.txt")) := by
  refine ⟨?_, ?_, ?_⟩
  · exact (C6_not_found_and_extension_rejection "missing.hyper" c6WorldMissing c6DirMissing false none).1 (by decide)
  · exact (C6_not_found_and_extension_rejection "nodir" c6WorldMissing c6DirMissing false none).2.1 (by decide)
  · exact (C6_not_found_and_extension_rejection "data.txt" c6WorldTxt c6DirMissing false none).2.2 (by decide) (by decide)

/-! ## Claim C8 -/

/-- Claim C8 (confirmed): for every existing directory, discover returns
success with `files_found` equal to the length of the returned file list
(whose entries, by the type `DirEntry`, each carry path, name, size and
modification time); an empty directory yields `files_found = 0` and an
empty list; a missing path or a non-directory path yields a structured
error with no files payload. -/
theorem C8_discover_contract (dir : String) (dw : DirWorld) : (dw.pathExists = true → dw.isDir = true → ∃ fs, discover_hyper_files dir dw = .ok { directory := dir, files_found := fs.length, files := fs }) ∧ (dw.pathExists = true → dw.isDir = true → dw.entries = [] → discover_hyper_files dir dw = .ok { directory := dir, files_found := 0, files := [] }) ∧ (dw.pathExists = false → discover_hyper_files dir dw = .err ("Directory not found: " ++ dir)) ∧ (dw.pathExists = true → dw.isDir = false → discover_hyper_files dir dw = .err ("Not a directory: " ++ dir)) := by
  refine ⟨?_, ?_, ?_, ?_⟩
  · intro h1 h2
    exact ⟨dw.entries.filter (fun e => pyEndsWith e.name ".hyper"), by simp [discover_hyper_files, h1, h2]⟩
  · intro h1 h2 h3
    simp [discover_hyper_files, h1, h2, h3]
  · intro h
    simp [discover_hyper_files, h]
  · intro h1 h2
    simp [discover_hyper_files, h1, h2]

def c8DirEmpty : DirWorld := { pathExists := true, isDir := true, entries := [] }

/-- Concrete instantiation of `C8_discover_contract`. -/
theorem C8_witness : discover_hyper_files "/data" c8DirEmpty = .ok { directory := "/data", files_found := 0, files := [] } := (C8_discover_contract "/data" c8DirEmpty).2.1 (by decide) (by decide) (by decide)

/-! ## Claim C1 -/

theorem exportTableOk_maxRows {n : Int} (hn : 1 ≤ n) (sch : String) (t : HTable) (hc : t.countFails = false) (hd : t.dataFails = false) : (exportTableOk false (some n) sch t).1.exported_rows = min n.toNat (exportTableOk false (some n) sch t).1.total_rows := by
  have hn0 : ¬ (n = 0) := by omega
  have hn1 : ¬ (n < 0) := by omega
  simp [exportTableOk, runDataQuery, hd, hc, hn0, hn1, exportRow]

/-- Claim C1 (amended): for every existing `.hyper` file and every integer
N ≥ 1 supplied via `--max-rows`, export returns exactly
`min(N, total_rows)` rows for each table whose queries succeed.  The
original claim's "including N = 0" fails: `elif max_rows_per_table:` is
false for `0`, so N = 0 selects the unlimited branch and exports all
rows (see `C1_counterexample`). -/
theorem C1_max_rows_bound (path : String) (w : World) (n : Int) (hn : 1 ≤ n) (hex : w.pathExists = true) (hext : pyEndsWith (pyLower path) ".hyper" = true) (hok : ∀ s ∈ w.db.schemas, ∀ t ∈ s.tables, t.columnsFail = false ∧ t.countFails = false ∧ t.dataFails = false) : ∃ r, export_file_data path w false (some n) = .ok r ∧ ∀ info ∈ r.tables, info.exported_rows = min n.toNat info.total_rows := by
  have hcf : ∀ s ∈ w.db.schemas, ∀ t ∈ s.tables, t.columnsFail = false := fun s hs t ht => (hok s hs t ht).1
  have hall := exportAllSchemas_ok false (some n) w.db.schemas hcf
  refine ⟨_, export_file_data_ok_of path w false (some n) hex hext hall, ?_⟩
  intro info hinfo
  rcases List.mem_map.mp hinfo with ⟨p, hp, rfl⟩
  rcases exportAllSchemas_mem hall p hp with ⟨sch, hsch, t, ht, rfl⟩
  exact exportTableOk_maxRows hn sch.name t (hok sch hsch t ht).2.1 (hok sch hsch t ht).2.2

def c1Table : HTable := { name := "t", columns := [{ name := "c", dataType := "bigint", nullable := false }], rows := [[HVal.intV 7]], columnsFail := false, countFails := false, dataFails := false }

def c1World : World := { pathExists := true, db := { schemas := [{ name := "S", tables := [c1Table] }], infoSchemaFails := false, pgNamespaceFails := false } }

/-- Refutes claim C1 as stated: on an existing `.hyper` file whose single
table holds one row, `--max-rows 0` exports 1 row, not
`min(0, total_rows) = 0`. -/
theorem C1_counterexample : exportedRowsOf (export_file_data "data.hyper" c1World false (some 0)) = [1] ∧ ¬ ([1] = [min ((0 : Int)).toNat 1]) := by decide

def c1WorldW : World := { pathExists := true, db := { schemas := [{ name := "S", tables := [c1Table] }], infoSchemaFails := false, pgNamespaceFails := false } }

/-- Concrete instantiation of `C1_max_rows_bound` at N = 3. -/
theorem C1_witness : ∃ r, export_file_data "data.hyper" c1WorldW false (some 3) = .ok r ∧ ∀ info ∈ r.tables, info.exported_rows = min ((3 : Int)).toNat info.total_rows := C1_max_rows_bound "data.hyper" c1WorldW 3 (by decide) (by decide) (by decide) (by decide)

/-! ## Claim C2 -/

/-- Claim C2 (amended): the two-attempt catalog fallback exists only in
export — its result is unchanged when the primary
`information_schema.tables` query fails, because the `except` branch
retries with `pg_tables` — whereas inspect issues a single `pg_namespace`
query with no fallback, so that query's failure fails the whole inspect
operation (see `C2_counterexample`). -/
theorem C2_catalog_fallback (path : String) (w : World) (so : Bool) (mr : Option Int) : (export_file_data path { pathExists := w.pathExists, db := { schemas := w.db.schemas, infoSchemaFails := true, pgNamespaceFails := w.db.pgNamespaceFails } } so mr = export_file_data path { pathExists := w.pathExists, db := { schemas := w.db.schemas, infoSchemaFails := false, pgNamespaceFails := w.db.pgNamespaceFails } } so mr) ∧ (w.pathExists = true → pyEndsWith (pyLower path) ".hyper" = true → w.db.pgNamespaceFails = true → inspect_file path w = .err ("Hyper API error: schema catalog query failed")) := by
  constructor
  · unfold export_file_data exportGo exportSchemaNames
    simp
  · intro h1 h2 h3
    unfold inspect_file inspectGo
    rw [if_neg (by simp [h1]), if_neg (by simp [h2]), if_pos (by simp [h3])]

def c2World : World := { pathExists := true, db := { schemas := [{ name := "S", tables := [] }], infoSchemaFails := false, pgNamespaceFails := true } }

/-- Refutes claim C2 as stated: on an existing `.hyper` file whose
`pg_namespace` schema-listing query fails, `inspect_file` fails the whole
operation with a `success: false` error instead of falling back to an
alternate system view. -/
theorem C2_counterexample : inspect_file "data.hyper" c2World = .err ("Hyper API error: schema catalog query failed") := by decide

def c2WorldW : World := { pathExists := true, db := { schemas := [{ name := "S", tables := [] }], infoSchemaFails := false, pgNamespaceFails := true } }

/-- Concrete instantiation of `C2_catalog_fallback`. -/
theorem C2_witness : (export_file_data "data.hyper" { pathExists := c2WorldW.pathExists, db := { schemas := c2WorldW.db.schemas, infoSchemaFails := true, pgNamespaceFails := c2WorldW.db.pgNamespaceFails } } false none = export_file_data "data.hyper" { pathExists := c2WorldW.pathExists, db := { schemas := c2WorldW.db.schemas, infoSchemaFails := false, pgNamespaceFails := c2WorldW.db.pgNamespaceFails } } false none) ∧ inspect_file "data.hyper" c2WorldW = .err ("Hyper API error: schema catalog query failed") := ⟨(C2_catalog_fallback "data.hyper" c2WorldW false none).1, (C2_catalog_fallback "data.hyper" c2WorldW false none).2 (by decide) (by decide) (by decide)⟩

/-! ## Claim C10 -/

/-- Claim C10 (confirmed): the extension check of inspect and export is
case-insensitive — any existing path whose name ends with `.hyper` in any
letter case (formalised: the path is `stem ++ suffix` with
`pyLower suffix = ".hyper"`) passes the check, because the whole path is
lowercased before the `endswith` comparison, and the operation proceeds
to its engine body — while discover returns only entries whose names end
with the lowercase `".hyper"` (the case-sensitive `rglob` pattern); in
particular `"data.HYPER"` fails discover's match but passes the
lowercased check. -/
theorem C10_extension_case_sensitivity (stem suffix : String) (w : World) (so : Bool) (mr : Option Int) (hsuf : pyLower suffix = ".hyper") (hex : w.pathExists = true) : (export_file_data (stem ++ suffix) w so mr = exportGo w so mr ∧ inspect_file (stem ++ suffix) w = inspectGo w) ∧ (∀ (dir : String) (dw : DirWorld) (r : DiscoverOk), discover_hyper_files dir dw = .ok r → ∀ e ∈ r.files, pyEndsWith e.name ".hyper" = true) ∧ (pyEndsWith "data.HYPER" ".hyper" = false ∧ pyEndsWith (pyLower "data.HYPER") ".hyper" = true) := by
  have hext : pyEndsWith (pyLower (stem ++ suffix)) ".hyper" = true := by
    rw [pyLower_append, hsuf]
    exact pyEndsWith_append_right (pyLower stem) ".hyper"
  refine ⟨⟨?_, ?_⟩, ?_, by decide⟩
  · unfold export_file_data
    rw [if_neg (by simp [hex]), if_neg (by simp [hext])]
  · unfold inspect_file
    rw [if_neg (by simp [hex]), if_neg (by simp [hext])]
  · intro dir dw r h e he
    unfold discover_hyper_files at h
    by_cases h1 : dw.pathExists = false
    · simp [h1] at h
    · rw [if_neg h1] at h
      by_cases h2 : dw.isDir = false
      · simp [h2] at h
      · rw [if_neg h2] at h
        cases h
        exact (List.mem_filter.mp he).2

def c10World : World := { pathExists := true, db := { schemas := [], infoSchemaFails := false, pgNamespaceFails := false } }

/-- Concrete instantiation of `C10_extension_case_sensitivity`: the path
`"data.HYPER"` (stem `"data"`, suffix `".HYPER"`) passes the check of
both inspect and export. -/
theorem C10_witness : export_file_data ("data" ++ ".HYPER") c10World false none = exportGo c10World false none ∧ inspect_file ("data" ++ ".HYPER") c10World = inspectGo c10World := ((C10_extension_case_sensitivity "data" ".HYPER" c10World false none (by decide) (by decide)).1)

/-! ## Claim C7 -/

theorem inspectTableOk_count (sch : String) (t : HTable) (hc : t.countFails = false) : (inspectTableOk sch t).1.row_count = RowCount.num t.rows.length ∧ (inspectTableOk sch t).2 = t.rows.length := by
  simp [inspectTableOk, hc]

/-- Claim C7 (confirmed): for every successful inspect in which no
per-table count query fails (and the per-table column queries succeed, so
that the result is successful at all), the top-level `total_rows` equals
the sum of the `row_count` values of the individual tables of the
result. -/
theorem C7_total_rows_sum (path : String) (w : World) (hex : w.pathExists = true) (hext : pyEndsWith (pyLower path) ".hyper" = true) (hns : w.db.pgNamespaceFails = false) (hok : ∀ s ∈ w.db.schemas, ∀ t ∈ s.tables, t.columnsFail = false ∧ t.countFails = false) : ∃ r, inspect_file path w = .ok r ∧ r.total_rows = (r.tables.map (fun i => i.row_count.toNat)).sum ∧ ∀ info ∈ r.tables, info.row_count ≠ RowCount.unknown := by
  have hcf : ∀ s ∈ w.db.schemas, ∀ t ∈ s.tables, t.columnsFail = false := fun s hs t ht => (hok s hs t ht).1
  have hall := inspectAllSchemas_ok w.db.schemas hcf
  refine ⟨_, inspect_file_ok_of path w hex hext hns hall, ?_, ?_⟩
  · show (List.map Prod.snd _).sum = _
    rw [List.map_map]
    refine congrArg List.sum (List.map_congr_left ?_)
    intro p hp
    rcases inspectAllSchemas_mem hall p hp with ⟨sch, hsch, t, ht, rfl⟩
    have h2 := inspectTableOk_count sch.name t (hok sch hsch t ht).2
    show (inspectTableOk sch.name t).2 = ((inspectTableOk sch.name t).1.row_count).toNat
    rw [h2.1, h2.2]
    rfl
  · intro info hinfo
    rcases List.mem_map.mp hinfo with ⟨p, hp, rfl⟩
    rcases inspectAllSchemas_mem hall p hp with ⟨sch, hsch, t, ht, rfl⟩
    rw [(inspectTableOk_count sch.name t (hok sch hsch t ht).2).1]
    simp

def c7Table : HTable := { name := "t", columns := [], rows := [[HVal.intV 1], [HVal.intV 2]], columnsFail := false, countFails := false, dataFails := false }

def c7World : World := { pathExists := true, db := { schemas := [{ name := "S", tables := [c7Table] }], infoSchemaFails := false, pgNamespaceFails := false } }

/-- Concrete instantiation of `C7_total_rows_sum`. -/
theorem C7_witness : ∃ r, inspect_file "data.hyper" c7World = .ok r ∧ r.total_rows = (r.tables.map (fun i => i.row_count.toNat)).sum ∧ ∀ info ∈ r.tables, info.row_count ≠ RowCount.unknown := C7_total_rows_sum "data.hyper" c7World (by decide) (by decide) (by decide) (by decide)

/-! ## Claim C9 -/

theorem exportTableOk_rows_spec (so : Bool) (mr : Option Int) (sch : String) (t : HTable) : (exportTableOk so mr sch t).1.exported_rows = (exportTableOk so mr sch t).1.data.length ∧ (exportTableOk so mr sch t).2 = (exportTableOk so mr sch t).1.exported_rows := by
  unfold exportTableOk
  cases runDataQuery so mr t <;> simp

/-- Claim C9 (confirmed): in every successful export result, each table's
`exported_rows` equals the length of its `data` list, and the top-level
`total_rows_exported` equals the sum of `exported_rows` over all tables —
including when some tables' data queries failed and contributed zero
rows. -/
theorem C9_export_count_invariants (path : String) (w : World) (so : Bool) (mr : Option Int) (r : ExportOk) (h : export_file_data path w so mr = .ok r) : (∀ info ∈ r.tables, info.exported_rows = info.data.length) ∧ r.total_rows_exported = (r.tables.map (fun i => i.exported_rows)).sum := by
  rcases export_file_data_ok_inv h with ⟨pairs, hall, htab, htot⟩
  constructor
  · intro info hinfo
    rw [htab] at hinfo
    rcases List.mem_map.mp hinfo with ⟨p, hp, rfl⟩
    rcases exportAllSchemas_mem hall p hp with ⟨sch, hsch, t, ht, rfl⟩
    exact (exportTableOk_rows_spec so mr sch.name t).1
  · rw [htot, htab, List.map_map]
    refine congrArg List.sum (List.map_congr_left ?_)
    intro p hp
    rcases exportAllSchemas_mem hall p hp with ⟨sch, hsch, t, ht, rfl⟩
    exact (exportTableOk_rows_spec so mr sch.name t).2

def c9Table : HTable := { name := "t", columns := [{ name := "c", dataType := "bigint", nullable := false }], rows := [[HVal.intV 7]], columnsFail := false, countFails := false, dataFails := true }

def c9World : World := { pathExists := true, db := { schemas := [{ name := "S", tables := [c9Table] }], infoSchemaFails := false, pgNamespaceFails := false } }

def c9Ok : ExportOk := { schemas := ["S"], tables := [{ schema := "S", name := "t", columns := [{ name := "c", dataType := "bigint", nullable := false }], total_rows := 1, exported_rows := 0, data := [] }], total_tables := 1, total_rows_exported := 0 }

/-- Concrete instantiation of `C9_export_count_invariants`, on a world
whose single table's data query fails and contributes zero rows. -/
theorem C9_witness : (∀ info ∈ c9Ok.tables, info.exported_rows = info.data.length) ∧ c9Ok.total_rows_exported = (c9Ok.tables.map (fun i => i.exported_rows)).sum := C9_export_count_invariants "data.hyper" c9World false none c9Ok (by decide)

/-! ## Claim C3 -/

/-- Claim C3 (amended): failures of a table's row-count or data-scan
queries are handled independently — the row count defaults to 0 (export)
or `"Unable to determine"` (inspect), the data to the empty list, the
table entry is still produced and the export completes over all tables —
but a failure of the per-table COLUMN-LISTING query, which the source
does not wrap in any `try`, aborts the whole export with
`success: false` (see `C3_counterexample`). -/
theorem C3_per_table_failure_handling (so : Bool) (mr : Option Int) (sch : String) (t : HTable) (path : String) (w : World) : (t.columnsFail = false → t.countFails = true → exportProcessTable so mr sch t = .ok (exportTableOk so mr sch t) ∧ (exportTableOk so mr sch t).1.total_rows = 0) ∧ (t.columnsFail = false → t.dataFails = true → (exportTableOk so mr sch t).1.data = [] ∧ (exportTableOk so mr sch t).1.exported_rows = 0) ∧ (t.countFails = true → (inspectTableOk sch t).1.row_count = RowCount.unknown) ∧ (w.pathExists = true → pyEndsWith (pyLower path) ".hyper" = true → (∀ s ∈ w.db.schemas, ∀ x ∈ s.tables, x.columnsFail = false) → ∃ r, export_file_data path w so mr = .ok r ∧ r.total_tables = (w.db.schemas.map (fun s => s.tables.length)).sum) := by
  refine ⟨?_, ?_, ?_, ?_⟩
  · intro h1 h2
    exact ⟨by simp [exportProcessTable, h1], by simp [exportTableOk, h2]; cases runDataQuery so mr t <;> simp⟩
  · intro h1 h2
    simp [exportTableOk, runDataQuery, h2]
  · intro h
    simp [inspectTableOk, h]
  · intro h1 h2 h3
    have hall := exportAllSchemas_ok so mr w.db.schemas h3
    refine ⟨_, export_file_data_ok_of path w so mr h1 h2 hall, ?_⟩
    show (List.map Prod.fst _).length = _
    rw [List.length_map, List.length_flatten, List.map_map]
    refine congrArg List.sum (List.map_congr_left ?_)
    intro s hs
    simp

def c3BadTable : HTable := { name := "t1", columns := [], rows := [], columnsFail := true, countFails := false, dataFails := false }

def c3GoodTable : HTable := { name := "t2", columns := [], rows := [], columnsFail := false, countFails := false, dataFails := false }

def c3World : World := { pathExists := true, db := { schemas := [{ name := "S", tables := [c3BadTable, c3GoodTable] }], infoSchemaFails := false, pgNamespaceFails := false } }

/-- Refutes claim C3 as stated: when one table's column-listing query
fails, the whole export aborts with a `success: false` error object, and
the remaining table is not processed. -/
theorem C3_counterexample : export_file_data "data.hyper" c3World false none = .err ("Hyper API error: " ++ "columns query failed for table t1") ∧ exportIsErr (export_file_data "data.hyper" c3World false none) = true := by decide

def c3CountFailTable : HTable := { name := "t", columns := [], rows := [[HVal.intV 1]], columnsFail := false, countFails := true, dataFails := true }

def c3World2 : World := { pathExists := true, db := { schemas := [{ name := "S", tables := [c3CountFailTable] }], infoSchemaFails := false, pgNamespaceFails := false } }

/-- Concrete instantiation of `C3_per_table_failure_handling`. -/
theorem C3_witness : (exportProcessTable false none "S" c3CountFailTable = .ok (exportTableOk false none "S" c3CountFailTable) ∧ (exportTableOk false none "S" c3CountFailTable).1.total_rows = 0) ∧ ((exportTableOk false none "S" c3CountFailTable).1.data = [] ∧ (exportTableOk false none "S" c3CountFailTable).1.exported_rows = 0) ∧ (inspectTableOk "S" c3CountFailTable).1.row_count = RowCount.unknown ∧ (∃ r, export_file_data "data.hyper" c3World2 false none = .ok r ∧ r.total_tables = (c3World2.db.schemas.map (fun s => s.tables.length)).sum) := by
  refine ⟨?_, ?_, ?_, ?_⟩
  · exact (C3_per_table_failure_handling false none "S" c3CountFailTable "data.hyper" c3World2).1 (by decide) (by decide)
  · exact (C3_per_table_failure_handling false none "S" c3CountFailTable "data.hyper" c3World2).2.1 (by decide) (by decide)
  · exact (C3_per_table_failure_handling false none "S" c3CountFailTable "data.hyper" c3World2).2.2.1 (by decide)
  · exact (C3_per_table_failure_handling false none "S" c3CountFailTable "data.hyper" c3World2).2.2.2 (by decide) (by decide) (by decide)

/-! ## Claim C5 -/

theorem inspectTableOk_sample (sch : String) (t : HTable) (hd : t.dataFails = false) : (inspectTableOk sch t).1.sample_data.length ≤ 5 ∧ ∀ n, (inspectTableOk sch t).1.row_count = RowCount.num n → (inspectTableOk sch t).1.sample_data.length ≤ n := by
  constructor
  · simp [inspectTableOk, hd]
  · intro n hn
    by_cases hc : t.countFails = true
    · simp [inspectTableOk, hc] at hn
    · simp [inspectTableOk, hc] at hn
      simp [inspectTableOk, hd, hc]
      omega

theorem exportTableOk_sampleOnly (mr : Option Int) (sch : String) (t : HTable) : (exportTableOk true mr sch t).1.exported_rows ≤ 5 ∧ (exportTableOk true mr sch t).1.data.length ≤ 5 := by
  by_cases hd : t.dataFails = true
  · simp [exportTableOk, runDataQuery, hd]
  · simp [exportTableOk, runDataQuery, hd]

/-- Claim C5 (amended): for every table of a successful inspect whose
sample query succeeds, the `sample_data` list has length at most 5 and at
most the table's numeric `row_count`; and export with `--sample-only`
never yields more than 5 rows per table, regardless of table size or of
per-table query failures.  The original claim's unqualified first half
fails when the sample query raises: the source then stores a one-element
error-string list, which can exceed a zero `row_count` (see
`C5_counterexample`). -/
theorem C5_sample_bounds (path : String) (w : World) (mr : Option Int) : (w.pathExists = true → pyEndsWith (pyLower path) ".hyper" = true → w.db.pgNamespaceFails = false → (∀ s ∈ w.db.schemas, ∀ t ∈ s.tables, t.columnsFail = false ∧ t.dataFails = false) → ∃ r, inspect_file path w = .ok r ∧ ∀ info ∈ r.tables, info.sample_data.length ≤ 5 ∧ ∀ n, info.row_count = RowCount.num n → info.sample_data.length ≤ n) ∧ (∀ r, export_file_data path w true mr = .ok r → ∀ info ∈ r.tables, info.exported_rows ≤ 5 ∧ info.data.length ≤ 5) := by
  constructor
  · intro h1 h2 h3 h4
    have hcf : ∀ s ∈ w.db.schemas, ∀ t ∈ s.tables, t.columnsFail = false := fun s hs t ht => (h4 s hs t ht).1
    have hall := inspectAllSchemas_ok w.db.schemas hcf
    refine ⟨_, inspect_file_ok_of path w h1 h2 h3 hall, ?_⟩
    intro info hinfo
    rcases List.mem_map.mp hinfo with ⟨p, hp, rfl⟩
    rcases inspectAllSchemas_mem hall p hp with ⟨sch, hsch, t, ht, rfl⟩
    exact inspectTableOk_sample sch.name t (h4 sch hsch t ht).2
  · intro r h info hinfo
    rcases export_file_data_ok_inv h with ⟨pairs, hall, htab, htot⟩
    rw [htab] at hinfo
    rcases List.mem_map.mp hinfo with ⟨p, hp, rfl⟩
    rcases exportAllSchemas_mem hall p hp with ⟨sch, hsch, t, ht, rfl⟩
    exact exportTableOk_sampleOnly mr sch.name t

def c5Table : HTable := { name := "t", columns := [], rows := [], columnsFail := false, countFails := false, dataFails := true }

def c5World : World := { pathExists := true, db := { schemas := [{ name := "S", tables := [c5Table] }], infoSchemaFails := false, pgNamespaceFails := false } }

def c5Info : InspectTableInfo := { schema := "S", name := "t", columns := [], row_count := RowCount.num 0, sample_data := [SampleEntry.note "Error retrieving sample data: query failed for table t"] }

/-- Refutes claim C5 as stated: a table with `row_count = 0` whose sample
query fails gets a one-element `sample_data` list (the error string), so
`sample_data` length exceeds `row_count`. -/
theorem C5_counterexample : tablesOfInspect (inspect_file "data.hyper" c5World) = [c5Info] ∧ c5Info.row_count = RowCount.num 0 ∧ c5Info.sample_data.length = 1 ∧ ¬ (c5Info.sample_data.length ≤ 0) := by decide

def c5TableW : HTable := { name := "t", columns := [], rows := [[HVal.intV 1], [HVal.intV 2]], columnsFail := false, countFails := false, dataFails := false }

def c5WorldW : World := { pathExists := true, db := { schemas := [{ name := "S", tables := [c5TableW] }], infoSchemaFails := false, pgNamespaceFails := false } }

/-- Concrete instantiation of `C5_sample_bounds`. -/
theorem C5_witness : (∃ r, inspect_file "data.hyper" c5WorldW = .ok r ∧ ∀ info ∈ r.tables, info.sample_data.length ≤ 5 ∧ ∀ n, info.row_count = RowCount.num n → info.sample_data.length ≤ n) ∧ (∀ r, export_file_data "data.hyper" c5WorldW true none = .ok r → ∀ info ∈ r.tables, info.exported_rows ≤ 5 ∧ info.data.length ≤ 5) := ⟨(C5_sample_bounds "data.hyper" c5WorldW none).1 (by decide) (by decide) (by decide) (by decide), (C5_sample_bounds "data.hyper" c5WorldW none).2⟩

/-! ## Claim C4 -/

/-- Claim C4 (amended): every value placed into an output row is drawn
from the JSON-serializable tagged type `JVal` (null, number, string, or
ISO-8601 timestamp string) — in particular every export data value is the
image of an engine value under `convertValueExport` — and numeric column
values appear as numbers in EXPORT output; in INSPECT output, however,
non-null non-temporal values (numbers included) are rendered as strings
through Python `str()` (see `C4_counterexample`). -/
theorem C4_value_taxonomy : (∀ n : Int, convertValueExport (HVal.intV n) = JVal.jnum n) ∧ (∀ n : Int, convertValueInspect (HVal.intV n) = JVal.jstr (toString n)) ∧ (∀ (path : String) (w : World) (so : Bool) (mr : Option Int) (r : ExportOk), export_file_data path w so mr = .ok r → ∀ info ∈ r.tables, ∀ row ∈ info.data, ∀ p ∈ row, ∃ v : HVal, p.2 = convertValueExport v) := by
  refine ⟨fun n => rfl, fun n => rfl, ?_⟩
  intro path w so mr r h info hinfo row hrow p hp
  rcases export_file_data_ok_inv h with ⟨pairs, hall, htab, htot⟩
  rw [htab] at hinfo
  rcases List.mem_map.mp hinfo with ⟨q, hq, rfl⟩
  rcases exportAllSchemas_mem hall q hq with ⟨sch, hsch, t, ht, rfl⟩
  revert hrow
  unfold exportTableOk
  cases runDataQuery so mr t with
  | none =>
    intro hrow
    simp at hrow
  | some rs =>
    intro hrow
    simp only at hrow
    rcases List.mem_map.mp hrow with ⟨r0, hr0, rfl⟩
    unfold exportRow at hp
    rcases List.mem_map.mp hp with ⟨q0, hq0, rfl⟩
    exact ⟨q0.2, rfl⟩

def c4Table : HTable := { name := "t", columns := [{ name := "c", dataType := "bigint", nullable := false }], rows := [[HVal.intV 7]], columnsFail := false, countFails := false, dataFails := false }

def c4World : World := { pathExists := true, db := { schemas := [{ name := "S", tables := [c4Table] }], infoSchemaFails := false, pgNamespaceFails := false } }

def c4Info : InspectTableInfo := { schema := "S", name := "t", columns := [{ name := "c", dataType := "bigint", nullable := false }], row_count := RowCount.num 1, sample_data := [SampleEntry.row [JVal.jstr "7"]] }

/-- Refutes claim C4 as stated: inspecting a table holding the numeric
value 7 puts the STRING `"7"` — not the number 7 — into the output row,
because inspect's conversion applies Python `str()` to non-null
non-temporal values. -/
theorem C4_counterexample : tablesOfInspect (inspect_file "data.hyper" c4World) = [c4Info] ∧ c4Info.sample_data = [SampleEntry.row [JVal.jstr "7"]] ∧ JVal.jstr "7" ≠ JVal.jnum 7 := by decide

def c4TableW : HTable := { name := "t", columns := [{ name := "c", dataType := "bigint", nullable := false }], rows := [[HVal.intV 7]], columnsFail := false, countFails := false, dataFails := false }

def c4WorldW : World := { pathExists := true, db := { schemas := [{ name := "S", tables := [c4TableW] }], infoSchemaFails := false, pgNamespaceFails := false } }

def c4OkW : ExportOk := { schemas := ["S"], tables := [{ schema := "S", name := "t", columns := [{ name := "c", dataType := "bigint", nullable := false }], total_rows := 1, exported_rows := 1, data := [[("c", JVal.jnum 7)]] }], total_tables := 1, total_rows_exported := 1 }

/-- Concrete instantiation of `C4_value_taxonomy`: in the export of the
same one-row table the numeric value appears as the number 7. -/
theorem C4_witness : ∀ info ∈ c4OkW.tables, ∀ row ∈ info.data, ∀ p ∈ row, ∃ v : HVal, p.2 = convertValueExport v := C4_value_taxonomy.2.2 "data.hyper" c4WorldW false none c4OkW (by decide)
